import Mathlib

/-!
Shallow embedding of the device-control core of the smart night-light
service (`app/gpio/base.py`, `app/gpio/led.py`, `app/gpio/mock_gpio.py`,
`app/gpio/rpi_gpio.py`, `app/domain/devices.py`, `app/domain/scenarios.py`,
`app/api/routes_scenarios.py`), together with proofs of the specified
properties of the LED controller state machine, the device registry, the
hardware backend teardown, and the scenario execution engine.

Python floats holding normalized brightness values are modelled by `ℚ`;
the operations involved (clamping, comparison with 0, multiplication by
100) are exact on the values the code manipulates.  Mutable objects are
modelled by explicit state passing; calls a controller makes into its
`PwmOutput` backend are recorded as an event list.  The non-reentrant
`threading.Lock` of the hardware backend is modelled explicitly, with
`Option` capturing a blocked (never-returning) acquisition.
-/

namespace NightLight

/-- `LedState` from `app/gpio/base.py`: the observable state of an LED. -/
structure LedState where
  is_on : Bool
  brightness : ℚ
deriving Repr, DecidableEq

/-- One call made on the `PwmOutput` interface (`app/gpio/base.py`), as
received by a backend. -/
inductive PwmEvent where
  | start (duty_cycle_percent : ℚ)
  | changeDuty (duty_cycle_percent : ℚ)
  | stop
  | close
deriving Repr, DecidableEq

/-- The in-memory fields of `LedController` (`app/gpio/led.py`):
`_is_on` and `_brightness`. -/
structure LedController where
  is_on : Bool
  brightness : ℚ
deriving Repr, DecidableEq

/-- The initial `LedController` state: `_is_on = False`, `_brightness = 0.0`. -/
def initController : LedController := ⟨false, 0⟩

/-- `_clamp` from `app/gpio/led.py`. -/
def _clamp (value low high : ℚ) : ℚ :=
  if value < low then low
  else if value > high then high
  else value

/-- `LedController.state`: a snapshot of the observable state. -/
def state (c : LedController) : LedState :=
  ⟨c.is_on, c.brightness⟩

/-- `LedController.set_power`.  Returns the `LedState` handed back to the
caller, the updated controller fields, and the calls made on the backend.
When turning on, a non-positive brightness is first raised to `1.0` and
`_apply` sends `change_duty_cycle(brightness * 100)`; when turning off the
backend is stopped and brightness reset to 0. -/
def set_power (c : LedController) (is_on : Bool) :
    LedState × LedController × List PwmEvent :=
  if is_on then
    let b := if c.brightness ≤ 0 then 1 else c.brightness
    (⟨true, b⟩, ⟨true, b⟩, [PwmEvent.changeDuty (b * 100)])
  else
    (⟨false, 0⟩, ⟨false, 0⟩, [PwmEvent.stop])

/-- `LedController.set_brightness`: clamp to `[0,1]`; a clamped value of 0
stops the backend and turns the LED off, otherwise `_apply` sends
`change_duty_cycle(brightness * 100)` and the LED is on. -/
def set_brightness (c : LedController) (brightness : ℚ) :
    LedState × LedController × List PwmEvent :=
  let b := _clamp brightness 0 1
  if b = 0 then
    (⟨false, 0⟩, ⟨false, 0⟩, [PwmEvent.stop])
  else
    (⟨true, b⟩, ⟨true, b⟩, [PwmEvent.changeDuty (b * 100)])

/-- `LedController.close`: `pwm.stop()` then, in `finally`, `pwm.close()`.
The in-memory fields are not touched. -/
def controllerClose (c : LedController) : LedController × List PwmEvent :=
  (c, [PwmEvent.stop, PwmEvent.close])

/-- The fields of `MockPwmOutput` (`app/gpio/mock_gpio.py`). -/
structure MockPwmOutput where
  frequency_hz : ℤ
  duty_cycle_percent : ℚ
  started : Bool
deriving Repr, DecidableEq

/-- How `MockPwmOutput` reacts to each interface call: `start` and
`change_duty_cycle` record the duty and mark the output started (the mock
auto-starts on a first `change_duty_cycle`), `stop` resets to 0, `close`
is a no-op. -/
def mockApply (m : MockPwmOutput) : PwmEvent → MockPwmOutput
  | PwmEvent.start d => { m with started := true, duty_cycle_percent := d }
  | PwmEvent.changeDuty d => { m with started := true, duty_cycle_percent := d }
  | PwmEvent.stop => { m with started := false, duty_cycle_percent := 0 }
  | PwmEvent.close => m

/-- Feed a list of interface calls to a `MockPwmOutput` in order. -/
def mockApplyAll (m : MockPwmOutput) (evs : List PwmEvent) : MockPwmOutput :=
  evs.foldl mockApply m

/-- A call made into the `RPi.GPIO` driver by `RpiPwmOutput`
(`app/gpio/rpi_gpio.py`). -/
inductive GpioCall where
  | pwmStart (duty_cycle_percent : ℚ)
  | pwmChangeDutyCycle (duty_cycle_percent : ℚ)
  | pwmStop
  | cleanup
deriving Repr, DecidableEq

/-- The fields of `RpiPwmOutput` that its methods read and write: the
per-instance non-reentrant `threading.Lock` (held or free) and the
`_started` flag. -/
structure RpiPwmOutput where
  lockHeld : Bool
  started : Bool
deriving Repr, DecidableEq

/-- Entering `with self._lock:` on a non-reentrant `threading.Lock`.
If the lock is already held — including by the very thread that is
acquiring — the acquisition blocks forever, modelled as `none`. -/
def rpiAcquire (s : RpiPwmOutput) : Option RpiPwmOutput :=
  if s.lockHeld then none else some { s with lockHeld := true }

/-- Leaving the `with self._lock:` block. -/
def rpiRelease (s : RpiPwmOutput) : RpiPwmOutput :=
  { s with lockHeld := false }

/-- `RpiPwmOutput.stop`: under the lock, call `self._pwm.stop()` only when
`_started`, then clear `_started`. -/
def rpiStop (s : RpiPwmOutput) : Option (RpiPwmOutput × List GpioCall) :=
  match rpiAcquire s with
  | none => none
  | some s1 =>
    let calls := if s1.started then [GpioCall.pwmStop] else []
    some (rpiRelease { s1 with started := false }, calls)

/-- `RpiPwmOutput.close`: under the lock, `try: self.stop()` and, in
`finally`, `self._gpio.cleanup(self.pin)`.  The inner `self.stop()` call
re-enters `rpiStop`, which re-acquires the same non-reentrant lock; a call
that blocks forever never returns, so the `finally` clause of a blocked
`try` body is never reached. -/
def rpiClose (s : RpiPwmOutput) : Option (RpiPwmOutput × List GpioCall) :=
  match rpiAcquire s with
  | none => none
  | some s1 =>
    match rpiStop s1 with
    | none => none
    | some (s2, calls) => some (rpiRelease s2, calls ++ [GpioCall.cleanup])

/-- `DeviceInfo` from `app/domain/devices.py`. -/
structure DeviceInfo where
  device_id : String
  device_type : String
deriving Repr, DecidableEq

/-- `LedDevice` from `app/domain/devices.py`: a device id paired with its
controller. -/
structure LedDevice where
  device_id : String
  controller : LedController
deriving Repr, DecidableEq

/-- The `_led_devices` dict of `DeviceRegistry`, as an insertion-ordered
association list keyed by `device_id`. -/
abbrev DeviceRegistry := List LedDevice

/-- `DeviceRegistry.register_led`: `self._led_devices[device.device_id] =
device` — replaces in place under an existing key, otherwise appends. -/
def register_led (reg : DeviceRegistry) (device : LedDevice) : DeviceRegistry :=
  if reg.any (fun d => d.device_id == device.device_id) then
    reg.map (fun d => if d.device_id == device.device_id then device else d)
  else
    reg ++ [device]

/-- `DeviceRegistry.list_devices`: metadata of every registered device. -/
def list_devices (reg : DeviceRegistry) : List DeviceInfo :=
  reg.map (fun d => ⟨d.device_id, "led"⟩)

/-- `DeviceRegistry.get_led`: dict lookup; `none` models the `KeyError`
raised when the id is absent. -/
def get_led (reg : DeviceRegistry) (device_id : String) : Option LedDevice :=
  reg.find? (fun d => d.device_id == device_id)

/-- Writing back the (in Python, in-place mutated) controller of the device
stored under `device_id`. -/
def registry_set (reg : DeviceRegistry) (device_id : String)
    (c : LedController) : DeviceRegistry :=
  reg.map (fun d => if d.device_id == device_id then ⟨device_id, c⟩ else d)

/-- `DeviceRegistry.close`: drain the dict (clearing it) under the lock,
then close every drained device in turn outside the lock.  Returns the
cleared registry together with, per drained device in order, its
controller and the calls its backend received from `LedController.close`. -/
def registry_close (reg : DeviceRegistry) :
    DeviceRegistry × List (LedController × List PwmEvent) :=
  ([], reg.map (fun d => controllerClose d.controller))

/-- Python `str.strip()` with no argument, as used on the `type` and
`device_id` fields in `trigger_scenario`: remove leading and trailing
whitespace. -/
def pyStrip (s : String) : String :=
  String.mk
    (((s.data.dropWhile Char.isWhitespace).reverse.dropWhile
        Char.isWhitespace).reverse)

/-- One scenario action as handled by `trigger_scenario`
(`app/api/routes_scenarios.py`): a loose dict with a `type`, a
`device_id`, and optional `is_on` / `brightness` value fields (`none`
models an absent key). -/
structure ScnAction where
  type : String
  device_id : String
  is_on : Option Bool
  brightness : Option ℚ
deriving Repr, DecidableEq

/-- One entry of the `executed` list built by `trigger_scenario`. -/
structure ExecRecord where
  type : String
  device_id : String
  state : LedState
deriving Repr, DecidableEq

/-- `Scenario` from `app/domain/scenarios.py`. -/
structure Scenario where
  scenario_id : String
  name : String
  actions : List ScnAction
deriving Repr, DecidableEq

/-- The `_scenarios` dict of `ScenarioRegistry`, as an insertion-ordered
association list keyed by `scenario_id`. -/
abbrev ScenarioRegistry := List Scenario

/-- `ScenarioRegistry.get`: dict lookup; `none` models the `KeyError`. -/
def scenario_get (scens : ScenarioRegistry) (scenario_id : String) :
    Option Scenario :=
  scens.find? (fun s => s.scenario_id == scenario_id)

/-- The action loop of `trigger_scenario`: for each action in stored order,
strip `type` and `device_id`; skip the action when the stripped
`device_id` is empty; dispatch `set_power` with `is_on` defaulting to
`False` and `set_brightness` with `brightness` defaulting to `0.0`,
appending `{type, device_id, state}` to `executed`; silently skip any
other `type`.  A failed device lookup raises `KeyError(device_id)`,
modelled as `Except.error device_id`; the registry component carries the
device mutations already performed, which the exception does not undo. -/
def trigger_actions :
    List ScnAction → DeviceRegistry →
    Except String (List ExecRecord) × DeviceRegistry
  | [], reg => (Except.ok [], reg)
  | action :: rest, reg =>
    let action_type := pyStrip action.type
    let device_id := pyStrip action.device_id
    if device_id = "" then
      trigger_actions rest reg
    else if action_type = "set_power" then
      match get_led reg device_id with
      | none => (Except.error device_id, reg)
      | some dev =>
        let r := set_power dev.controller (action.is_on.getD false)
        let next := trigger_actions rest (registry_set reg device_id r.2.1)
        (next.1.map (fun recs => ⟨action_type, device_id, r.1⟩ :: recs), next.2)
    else if action_type = "set_brightness" then
      match get_led reg device_id with
      | none => (Except.error device_id, reg)
      | some dev =>
        let r := set_brightness dev.controller (action.brightness.getD 0)
        let next := trigger_actions rest (registry_set reg device_id r.2.1)
        (next.1.map (fun recs => ⟨action_type, device_id, r.1⟩ :: recs), next.2)
    else
      trigger_actions rest reg

/-- The error outcomes of the `trigger_scenario` endpoint: the 404 raised
for an unknown scenario id, and the `KeyError` propagating out of a device
lookup inside the action loop. -/
inductive TriggerError where
  | notFound
  | keyError (device_id : String)
deriving Repr, DecidableEq

/-- `trigger_scenario`: fetch the scenario (404 when absent, before any
action runs), then run the action loop.  The returned registry carries the
device mutations performed before any propagated failure. -/
def trigger_scenario (scens : ScenarioRegistry) (devices : DeviceRegistry)
    (scenario_id : String) :
    Except TriggerError (String × List ExecRecord) × DeviceRegistry :=
  match scenario_get scens scenario_id with
  | none => (Except.error TriggerError.notFound, devices)
  | some sc =>
    match trigger_actions sc.actions devices with
    | (Except.ok recs, reg1) => (Except.ok (sc.scenario_id, recs), reg1)
    | (Except.error d, reg1) => (Except.error (TriggerError.keyError d), reg1)

/-- One observable operation on a `LedController`. -/
inductive LedOp where
  | power (is_on : Bool)
  | brightnessOp (value : ℚ)
  | read
deriving Repr, DecidableEq

/-- The controller-state effect of one operation. -/
def applyOp (c : LedController) : LedOp → LedController
  | LedOp.power b => (set_power c b).2.1
  | LedOp.brightnessOp v => (set_brightness c v).2.1
  | LedOp.read => c

/-- Run a sequence of operations from a given controller state. -/
def runOps (c : LedController) : List LedOp → LedController
  | [] => c
  | op :: rest => runOps (applyOp c op) rest

/-- The specified invariant on the observable state:
`is_on == (brightness > 0)` and `0 ≤ brightness ≤ 1`. -/
def stateInvariant (s : LedState) : Prop :=
  (s.is_on = true ↔ 0 < s.brightness) ∧ 0 ≤ s.brightness ∧ s.brightness ≤ 1

lemma _clamp_nonneg (v : ℚ) : 0 ≤ _clamp v 0 1 := by
  unfold _clamp
  split_ifs <;> linarith

lemma _clamp_le_one (v : ℚ) : _clamp v 0 1 ≤ 1 := by
  unfold _clamp
  split_ifs <;> linarith

lemma stateInvariant_applyOp (c : LedController) (op : LedOp)
    (h : stateInvariant (state c)) : stateInvariant (state (applyOp c op)) := by
  obtain ⟨h1, h2, h3⟩ := h
  simp only [state] at h1 h2 h3
  cases op with
  | power b =>
    cases b with
    | false =>
      simp [applyOp, set_power, state, stateInvariant]
    | true =>
      by_cases hb : c.brightness ≤ 0
      · simp only [applyOp, set_power, if_pos hb, if_true, state, stateInvariant]
        norm_num
      · push_neg at hb
        simp only [applyOp, set_power, if_neg (not_le.mpr hb), if_true, state,
          stateInvariant]
        exact ⟨by simp [hb], le_of_lt hb, h3⟩
  | brightnessOp v =>
    by_cases hz : _clamp v 0 1 = 0
    · simp [applyOp, set_brightness, hz, state, stateInvariant]
    · simp only [applyOp, set_brightness, if_neg hz, state, stateInvariant]
      refine ⟨by simp [lt_of_le_of_ne (_clamp_nonneg v) (Ne.symm hz)],
        _clamp_nonneg v, _clamp_le_one v⟩
  | read => exact ⟨h1, h2, h3⟩

lemma stateInvariant_runOps (ops : List LedOp) :
    ∀ c : LedController, stateInvariant (state c) →
      stateInvariant (state (runOps c ops)) := by
  induction ops with
  | nil => intro c h; exact h
  | cons op rest ih =>
    intro c h
    exact ih (applyOp c op) (stateInvariant_applyOp c op h)

/-- C1: for every sequence of `set_power` / `set_brightness` / `state`
operations starting from the initial state (off, brightness 0), the
observable state satisfies `is_on == (brightness > 0)` and
`0 ≤ brightness ≤ 1`. -/
theorem spec_C1 (ops : List LedOp) :
    stateInvariant (state (runOps initController ops)) :=
  stateInvariant_runOps ops initController
    (by simp [initController, state, stateInvariant])

/-- C2: `RpiPwmOutput.close` never completes.  It takes the per-instance
non-reentrant `threading.Lock` and then calls `self.stop()`, which blocks
forever trying to take the same lock; consequently the `finally` clause
releasing the pin (`gpio.cleanup`) is never reached either.  This
contradicts the specified behaviour (attempt `stop`, then release the pin,
never block indefinitely). -/
theorem spec_C2 (s : RpiPwmOutput) : rpiClose s = none := by
  by_cases h : s.lockHeld <;>
    simp [rpiClose, rpiStop, rpiAcquire, h]

/-- C5 counterexample: re-registering a device under an already-used id
displaces the previously registered controller, which `registry_close`
then never closes.  Concretely, after `register_led "a" ⟨true, 1/2⟩` and
then `register_led "a" ⟨true, 3/4⟩`, closing the registry stops and closes
only the second controller's backend; the first controller — registered
before the close — appears in no backend trace at all, so it is false that
every controller registered before the close had its backend receive one
`stop` and one `close`. -/
theorem spec_C5_counterexample :
    (registry_close
        (register_led (register_led [] ⟨"a", ⟨true, 1/2⟩⟩)
          ⟨"a", ⟨true, 3/4⟩⟩)).2 =
      [(⟨true, 3/4⟩, [PwmEvent.stop, PwmEvent.close])] ∧
    (⟨true, (1 : ℚ)/2⟩ : LedController) ∉
      (registry_close
          (register_led (register_led [] ⟨"a", ⟨true, 1/2⟩⟩)
            ⟨"a", ⟨true, 3/4⟩⟩)).2.map Prod.fst := by
  refine ⟨rfl, ?_⟩
  have h : (registry_close
      (register_led (register_led [] ⟨"a", ⟨true, 1/2⟩⟩)
        ⟨"a", ⟨true, 3/4⟩⟩)).2 =
      [(⟨true, 3/4⟩, [PwmEvent.stop, PwmEvent.close])] := rfl
  rw [h]
  norm_num [LedController.mk.injEq]

/-- C5 (amended): after `DeviceRegistry.close`, `list_devices` returns the
empty list, and every controller still present in the registry when
`close` is called (the drained controllers) has its backend receive
exactly one `stop` followed by one `close`, in drained order. -/
theorem spec_C5 (reg : DeviceRegistry) :
    list_devices (registry_close reg).1 = [] ∧
    (registry_close reg).2 =
      reg.map (fun d => (d.controller, [PwmEvent.stop, PwmEvent.close])) := by
  exact ⟨rfl, rfl⟩

/-- C6: for all `b` in `[-1, 2]`, `set_brightness b` then `state` yields
`brightness = clamp(b,0,1)` and `is_on == (clamp(b,0,1) > 0)`; when the
clamped value is exactly 0 the backend receives `stop()`, otherwise it
receives `change_duty_cycle` with the duty derived from the brightness. -/
theorem spec_C6 (c : LedController) (b : ℚ) (h1 : -1 ≤ b) (h2 : b ≤ 2) :
    (state (set_brightness c b).2.1).brightness = _clamp b 0 1 ∧
    ((state (set_brightness c b).2.1).is_on = true ↔ 0 < _clamp b 0 1) ∧
    (_clamp b 0 1 = 0 → (set_brightness c b).2.2 = [PwmEvent.stop]) ∧
    (_clamp b 0 1 ≠ 0 →
      (set_brightness c b).2.2 =
        [PwmEvent.changeDuty (_clamp b 0 1 * 100)]) := by
  by_cases hz : _clamp b 0 1 = 0
  · refine ⟨?_, ?_, fun _ => ?_, fun hne => absurd hz hne⟩ <;>
      simp [set_brightness, state, hz]
  · have hpos : 0 < _clamp b 0 1 :=
      lt_of_le_of_ne (_clamp_nonneg b) (Ne.symm hz)
    refine ⟨?_, ?_, fun h0 => absurd h0 hz, fun _ => ?_⟩ <;>
      simp [set_brightness, state, hz, hpos]

theorem spec_C6_witness :
    (state (set_brightness initController (2/5)).2.1).brightness =
      _clamp (2/5) 0 1 ∧
    ((state (set_brightness initController (2/5)).2.1).is_on = true ↔
      0 < _clamp (2/5) 0 1) ∧
    (_clamp (2/5) 0 1 = 0 →
      (set_brightness initController (2/5)).2.2 = [PwmEvent.stop]) ∧
    (_clamp (2/5) 0 1 ≠ 0 →
      (set_brightness initController (2/5)).2.2 =
        [PwmEvent.changeDuty (_clamp (2/5) 0 1 * 100)]) :=
  spec_C6 initController (2/5) (by norm_num) (by norm_num)

/-- C7: `set_power true` with current brightness ≤ 0 sets brightness to
exactly 1.0, sends `change_duty_cycle(brightness * 100) = 100` to the
backend and moves to ON; with brightness already positive the brightness
is left unchanged (the duty it re-applies is derived from it). -/
theorem spec_C7 (c : LedController) :
    (c.brightness ≤ 0 →
      (set_power c true).2.1 = ⟨true, 1⟩ ∧
      (set_power c true).1 = ⟨true, 1⟩ ∧
      (set_power c true).2.2 = [PwmEvent.changeDuty 100]) ∧
    (0 < c.brightness →
      (set_power c true).2.1 = ⟨true, c.brightness⟩ ∧
      (set_power c true).1 = ⟨true, c.brightness⟩ ∧
      (set_power c true).2.2 =
        [PwmEvent.changeDuty (c.brightness * 100)]) := by
  constructor
  · intro hb
    refine ⟨?_, ?_, ?_⟩ <;> simp [set_power, if_pos hb] <;> norm_num
  · intro hb
    refine ⟨?_, ?_, ?_⟩ <;> simp [set_power, if_neg (not_le.mpr hb)]

theorem spec_C7_witness :
    ((set_power ⟨false, 0⟩ true).2.1 = ⟨true, 1⟩ ∧
     (set_power ⟨false, 0⟩ true).1 = ⟨true, 1⟩ ∧
     (set_power ⟨false, 0⟩ true).2.2 = [PwmEvent.changeDuty 100]) ∧
    ((set_power ⟨true, 1/2⟩ true).2.1 = ⟨true, 1/2⟩ ∧
     (set_power ⟨true, 1/2⟩ true).1 = ⟨true, 1/2⟩ ∧
     (set_power ⟨true, 1/2⟩ true).2.2 =
       [PwmEvent.changeDuty (1/2 * 100)]) :=
  ⟨(spec_C7 ⟨false, 0⟩).1 (by norm_num),
   (spec_C7 ⟨true, 1/2⟩).2 (by norm_num)⟩

/-- C8: `set_power false` is idempotent.  From any controller state and
any mock-backend state, two consecutive `set_power false` calls both
return `{is_on: false, brightness: 0}`, leave identical controller state,
and the mock backend's recorded duty cycle is 0 after each call. -/
theorem spec_C8 (c : LedController) (m : MockPwmOutput) :
    (set_power c false).1 = ⟨false, 0⟩ ∧
    (set_power (set_power c false).2.1 false).1 = ⟨false, 0⟩ ∧
    (set_power c false).2.1 = (set_power (set_power c false).2.1 false).2.1 ∧
    (mockApplyAll m (set_power c false).2.2).duty_cycle_percent = 0 ∧
    (mockApplyAll (mockApplyAll m (set_power c false).2.2)
        (set_power (set_power c false).2.1 false).2.2).duty_cycle_percent =
      0 :=
  ⟨rfl, rfl, rfl, rfl, rfl⟩

lemma trigger_actions_cons_skip_empty (a : ScnAction) (rest : List ScnAction)
    (reg : DeviceRegistry) (h : pyStrip a.device_id = "") :
    trigger_actions (a :: rest) reg = trigger_actions rest reg := by
  simp [trigger_actions, h]

lemma trigger_actions_cons_skip_unknown (a : ScnAction)
    (rest : List ScnAction) (reg : DeviceRegistry)
    (h1 : pyStrip a.device_id ≠ "") (h2 : pyStrip a.type ≠ "set_power")
    (h3 : pyStrip a.type ≠ "set_brightness") :
    trigger_actions (a :: rest) reg = trigger_actions rest reg := by
  simp [trigger_actions, h1, h2, h3]

lemma trigger_actions_cons_power_missing (a : ScnAction)
    (rest : List ScnAction) (reg : DeviceRegistry)
    (h1 : pyStrip a.device_id ≠ "") (h2 : pyStrip a.type = "set_power")
    (h3 : get_led reg (pyStrip a.device_id) = none) :
    trigger_actions (a :: rest) reg =
      (Except.error (pyStrip a.device_id), reg) := by
  simp [trigger_actions, h1, h2, h3]

lemma trigger_actions_cons_brightness_missing (a : ScnAction)
    (rest : List ScnAction) (reg : DeviceRegistry)
    (h1 : pyStrip a.device_id ≠ "") (h2 : pyStrip a.type = "set_brightness")
    (h3 : get_led reg (pyStrip a.device_id) = none) :
    trigger_actions (a :: rest) reg =
      (Except.error (pyStrip a.device_id), reg) := by
  have h4 : pyStrip a.type ≠ "set_power" := by simp [h2]
  simp [trigger_actions, h1, h2, h3, h4]

lemma trigger_actions_cons_power_found (a : ScnAction)
    (rest : List ScnAction) (reg : DeviceRegistry) (dev : LedDevice)
    (h1 : pyStrip a.device_id ≠ "") (h2 : pyStrip a.type = "set_power")
    (h3 : get_led reg (pyStrip a.device_id) = some dev) :
    trigger_actions (a :: rest) reg =
      ((trigger_actions rest
          (registry_set reg (pyStrip a.device_id)
            (set_power dev.controller (a.is_on.getD false)).2.1)).1.map
        (fun recs =>
          (⟨"set_power", pyStrip a.device_id,
            (set_power dev.controller (a.is_on.getD false)).1⟩ :
            ExecRecord) :: recs),
       (trigger_actions rest
          (registry_set reg (pyStrip a.device_id)
            (set_power dev.controller (a.is_on.getD false)).2.1)).2) := by
  simp [trigger_actions, h1, h2, h3]

lemma trigger_actions_cons_brightness_found (a : ScnAction)
    (rest : List ScnAction) (reg : DeviceRegistry) (dev : LedDevice)
    (h1 : pyStrip a.device_id ≠ "") (h2 : pyStrip a.type = "set_brightness")
    (h3 : get_led reg (pyStrip a.device_id) = some dev) :
    trigger_actions (a :: rest) reg =
      ((trigger_actions rest
          (registry_set reg (pyStrip a.device_id)
            (set_brightness dev.controller (a.brightness.getD 0)).2.1)).1.map
        (fun recs =>
          (⟨"set_brightness", pyStrip a.device_id,
            (set_brightness dev.controller (a.brightness.getD 0)).1⟩ :
            ExecRecord) :: recs),
       (trigger_actions rest
          (registry_set reg (pyStrip a.device_id)
            (set_brightness dev.controller (a.brightness.getD 0)).2.1)).2) := by
  have h4 : pyStrip a.type ≠ "set_power" := by simp [h2]
  simp [trigger_actions, h1, h2, h3, h4]

/-- C3: the trigger loop walks the stored actions in order, silently skips
(no error, no result entry) every action whose `device_id` is empty after
trimming or whose `type` is not a known kind, and for each dispatched
action prepends to the remainder's outcome a record
`{type, device_id, resulting state}` — so the returned `executed` list is
in dispatch order.  In particular the scenario
`[{type: "noop", device_id: ""}, {type: "set_power", device_id: "x",
is_on: true}]` against a registry holding `"x"` yields an executed list of
length 1. -/
theorem spec_C3 :
    (∀ (a : ScnAction) (rest : List ScnAction) (reg : DeviceRegistry),
        pyStrip a.device_id = "" →
        trigger_actions (a :: rest) reg = trigger_actions rest reg) ∧
    (∀ (a : ScnAction) (rest : List ScnAction) (reg : DeviceRegistry),
        pyStrip a.device_id ≠ "" → pyStrip a.type ≠ "set_power" →
        pyStrip a.type ≠ "set_brightness" →
        trigger_actions (a :: rest) reg = trigger_actions rest reg) ∧
    (∀ (a : ScnAction) (rest : List ScnAction) (reg : DeviceRegistry)
        (dev : LedDevice),
        pyStrip a.device_id ≠ "" → pyStrip a.type = "set_power" →
        get_led reg (pyStrip a.device_id) = some dev →
        trigger_actions (a :: rest) reg =
          ((trigger_actions rest
              (registry_set reg (pyStrip a.device_id)
                (set_power dev.controller (a.is_on.getD false)).2.1)).1.map
            (fun recs =>
              (⟨"set_power", pyStrip a.device_id,
                (set_power dev.controller (a.is_on.getD false)).1⟩ :
                ExecRecord) :: recs),
           (trigger_actions rest
              (registry_set reg (pyStrip a.device_id)
                (set_power dev.controller (a.is_on.getD false)).2.1)).2)) ∧
    (∀ (a : ScnAction) (rest : List ScnAction) (reg : DeviceRegistry)
        (dev : LedDevice),
        pyStrip a.device_id ≠ "" → pyStrip a.type = "set_brightness" →
        get_led reg (pyStrip a.device_id) = some dev →
        trigger_actions (a :: rest) reg =
          ((trigger_actions rest
              (registry_set reg (pyStrip a.device_id)
                (set_brightness dev.controller
                  (a.brightness.getD 0)).2.1)).1.map
            (fun recs =>
              (⟨"set_brightness", pyStrip a.device_id,
                (set_brightness dev.controller (a.brightness.getD 0)).1⟩ :
                ExecRecord) :: recs),
           (trigger_actions rest
              (registry_set reg (pyStrip a.device_id)
                (set_brightness dev.controller
                  (a.brightness.getD 0)).2.1)).2)) ∧
    (trigger_actions
        [⟨"noop", "", none, none⟩, ⟨"set_power", "x", some true, none⟩]
        [⟨"x", initController⟩] =
      (Except.ok [⟨"set_power", "x", ⟨true, 1⟩⟩],
       [⟨"x", ⟨true, 1⟩⟩])) := by
  refine ⟨trigger_actions_cons_skip_empty,
    trigger_actions_cons_skip_unknown,
    trigger_actions_cons_power_found,
    trigger_actions_cons_brightness_found, ?_⟩
  rfl

theorem spec_C3_witness :
    trigger_actions [(⟨"noop", "", none, none⟩ : ScnAction)] [] =
      trigger_actions [] [] ∧
    trigger_actions [(⟨"blink", "x", none, none⟩ : ScnAction)] [] =
      trigger_actions [] [] ∧
    trigger_actions [(⟨"set_power", "x", some true, none⟩ : ScnAction)]
        [⟨"x", initController⟩] =
      ((trigger_actions []
          (registry_set [⟨"x", initController⟩] "x"
            (set_power initController true).2.1)).1.map
        (fun recs =>
          (⟨"set_power", "x", (set_power initController true).1⟩ :
            ExecRecord) :: recs),
       (trigger_actions []
          (registry_set [⟨"x", initController⟩] "x"
            (set_power initController true).2.1)).2) :=
  ⟨spec_C3.1 ⟨"noop", "", none, none⟩ [] [] (by decide),
   spec_C3.2.1 ⟨"blink", "x", none, none⟩ [] [] (by decide) (by decide)
     (by decide),
   spec_C3.2.2.1 ⟨"set_power", "x", some true, none⟩ []
     [⟨"x", initController⟩] ⟨"x", initController⟩ (by decide) (by decide)
     rfl⟩

/-- C4: triggering an unknown scenario id fails with NotFound before any
action runs (the device registry is untouched); and when a dispatched
action targets a device id absent from the registry, the lookup failure
propagates immediately — the result is the same error whatever actions
remain, so the remaining actions never run — while mutations performed by
earlier actions are kept (no rollback), as the concrete two-action run
shows. -/
theorem spec_C4 :
    (∀ (scens : ScenarioRegistry) (devices : DeviceRegistry)
        (scenario_id : String),
        scenario_get scens scenario_id = none →
        trigger_scenario scens devices scenario_id =
          (Except.error TriggerError.notFound, devices)) ∧
    (∀ (a : ScnAction) (rest : List ScnAction) (reg : DeviceRegistry),
        pyStrip a.device_id ≠ "" →
        (pyStrip a.type = "set_power" ∨ pyStrip a.type = "set_brightness") →
        get_led reg (pyStrip a.device_id) = none →
        trigger_actions (a :: rest) reg =
          (Except.error (pyStrip a.device_id), reg)) ∧
    (trigger_actions
        [⟨"set_power", "y", some true, none⟩,
         ⟨"set_power", "ghost", some true, none⟩]
        [⟨"y", initController⟩] =
      (Except.error "ghost", [⟨"y", ⟨true, 1⟩⟩])) := by
  refine ⟨?_, ?_, ?_⟩
  · intro scens devices scenario_id h
    simp [trigger_scenario, h]
  · intro a rest reg h1 h2 h3
    rcases h2 with h2 | h2
    · exact trigger_actions_cons_power_missing a rest reg h1 h2 h3
    · exact trigger_actions_cons_brightness_missing a rest reg h1 h2 h3
  · rfl

theorem spec_C4_witness :
    trigger_scenario [] [] "missing_scenario" =
      (Except.error TriggerError.notFound, []) ∧
    trigger_actions [(⟨"set_power", "ghost", some true, none⟩ : ScnAction)]
        [] =
      (Except.error "ghost", []) :=
  ⟨spec_C4.1 [] [] "missing_scenario" rfl,
   spec_C4.2.1 ⟨"set_power", "ghost", some true, none⟩ [] [] (by decide)
     (Or.inl (by decide)) rfl⟩

/-- C9: in the trigger loop, a `set_brightness` action with no
`brightness` field is dispatched with value 0.0 and a `set_power` action
with no `is_on` field is dispatched as power-off: both are executed (a
record is appended) and both leave the target device in the off state
`{is_on: false, brightness: 0}`. -/
theorem spec_C9 :
    ∀ (d : String) (rest : List ScnAction) (reg : DeviceRegistry)
      (dev : LedDevice),
      pyStrip d ≠ "" → get_led reg (pyStrip d) = some dev →
      (trigger_actions ((⟨"set_brightness", d, none, none⟩ : ScnAction)
            :: rest) reg =
        ((trigger_actions rest
            (registry_set reg (pyStrip d) (⟨false, 0⟩ : LedController))).1.map
          (fun recs =>
            (⟨"set_brightness", pyStrip d, ⟨false, 0⟩⟩ : ExecRecord) :: recs),
         (trigger_actions rest
            (registry_set reg (pyStrip d) (⟨false, 0⟩ : LedController))).2)) ∧
      (trigger_actions ((⟨"set_power", d, none, none⟩ : ScnAction)
            :: rest) reg =
        ((trigger_actions rest
            (registry_set reg (pyStrip d) (⟨false, 0⟩ : LedController))).1.map
          (fun recs =>
            (⟨"set_power", pyStrip d, ⟨false, 0⟩⟩ : ExecRecord) :: recs),
         (trigger_actions rest
            (registry_set reg (pyStrip d) (⟨false, 0⟩ : LedController))).2)) := by
  intro d rest reg dev hd hget
  constructor
  · have h := trigger_actions_cons_brightness_found
      ⟨"set_brightness", d, none, none⟩ rest reg dev hd rfl hget
    simpa [set_brightness, _clamp] using h
  · have h := trigger_actions_cons_power_found
      ⟨"set_power", d, none, none⟩ rest reg dev hd rfl hget
    simpa [set_power] using h

theorem spec_C9_witness :
    (trigger_actions [(⟨"set_brightness", "x", none, none⟩ : ScnAction)]
        [⟨"x", ⟨true, 1/2⟩⟩] =
      ((trigger_actions []
          (registry_set [⟨"x", ⟨true, 1/2⟩⟩] "x"
            (⟨false, 0⟩ : LedController))).1.map
        (fun recs =>
          (⟨"set_brightness", "x", ⟨false, 0⟩⟩ : ExecRecord) :: recs),
       (trigger_actions []
          (registry_set [⟨"x", ⟨true, 1/2⟩⟩] "x"
            (⟨false, 0⟩ : LedController))).2)) ∧
    (trigger_actions [(⟨"set_power", "x", none, none⟩ : ScnAction)]
        [⟨"x", ⟨true, 1/2⟩⟩] =
      ((trigger_actions []
          (registry_set [⟨"x", ⟨true, 1/2⟩⟩] "x"
            (⟨false, 0⟩ : LedController))).1.map
        (fun recs =>
          (⟨"set_power", "x", ⟨false, 0⟩⟩ : ExecRecord) :: recs),
       (trigger_actions []
          (registry_set [⟨"x", ⟨true, 1/2⟩⟩] "x"
            (⟨false, 0⟩ : LedController))).2)) :=
  spec_C9 "x" [] [⟨"x", ⟨true, 1/2⟩⟩] ⟨"x", ⟨true, 1/2⟩⟩ (by decide) rfl

/-- C10: an action whose type is neither `set_power` nor `set_brightness`
is skipped without consulting the device registry: the loop's result on
such an action equals its result on the remaining actions for **every**
registry, in particular for one lacking the targeted device id — so an
unknown-type action aimed at an absent device never aborts the remaining
actions, as the concrete run against a registry without `"ghost"` shows. -/
theorem spec_C10 :
    (∀ (a : ScnAction) (rest : List ScnAction) (reg : DeviceRegistry),
        pyStrip a.device_id ≠ "" → pyStrip a.type ≠ "set_power" →
        pyStrip a.type ≠ "set_brightness" →
        trigger_actions (a :: rest) reg = trigger_actions rest reg) ∧
    (trigger_actions
        [⟨"blink", "ghost", some true, some 1⟩,
         ⟨"set_power", "x", some true, none⟩]
        [⟨"x", initController⟩] =
      (Except.ok [⟨"set_power", "x", ⟨true, 1⟩⟩],
       [⟨"x", ⟨true, 1⟩⟩])) := by
  exact ⟨trigger_actions_cons_skip_unknown, rfl⟩

theorem spec_C10_witness :
    trigger_actions [(⟨"blink", "ghost", some true, some 1⟩ : ScnAction)]
        [] =
      trigger_actions [] [] :=
  spec_C10.1 ⟨"blink", "ghost", some true, some 1⟩ [] [] (by decide)
    (by decide) (by decide)

end NightLight
